import Mathlib

/-!
Verification of the PV Water Heating Manager core logic.

The definitions below are a shallow embedding of
`src/pv_water_heating_manager/manager.py` and
`src/pv_water_heating_manager/switch.py`:
machine floats become exact rationals, Python `round(x, 2)` becomes
round-half-even on rationals, external sensor/clock reads become explicit
parameters, and the scheduler's cross-tick flags become an explicit state
record threaded through step functions.
-/

/-- Round-half-even to the nearest integer, the tie-breaking rule used by
Python's builtin `round`. -/
def roundHalfEven (x : ℚ) : ℤ :=
  let f := ⌊x⌋
  let r := x - f
  if r < 1/2 then f
  else if 1/2 < r then f + 1
  else if f % 2 = 0 then f else f + 1

/-- Python `round(x, 2)`. -/
def round2 (x : ℚ) : ℚ := (roundHalfEven (100 * x) : ℚ) / 100

/-- Embedding of `PVWaterHeatingManager._calculate_boiler_heat`
(manager.py lines 617-662).  Arguments in source order:
boiler power (W), boiler volume (L), current water temperature,
temperature to heat to.  Returns (thermal energy in kWh, minutes to heat). -/
def calculate_boiler_heat (boiler_power boiler_volume water_temp temp_to_heat : ℚ) :
    ℚ × ℚ :=
  if boiler_volume = 0 ∨ boiler_power = 0 then (0, 0)
  else if temp_to_heat ≤ water_temp then (0, 0)
  else
    let Pt := (4.186 * boiler_volume * (temp_to_heat - water_temp)) / 3600
    let Pt_time := Pt / (boiler_power / 1000) * 60
    (round2 Pt, round2 Pt_time)

/-- Embedding of `PVWaterHeatingManager._calculate_battery_energy`
(manager.py lines 664-693).  The source's `battery_to_charge` parameter
defaults to 80 and no call site overrides it. -/
def calculate_battery_energy (battery_capacity battery_soc battery_to_charge : ℚ) : ℚ :=
  if battery_capacity = 0 then 0
  else if battery_to_charge ≤ battery_soc then 0
  else round2 (battery_capacity / 1000 * (battery_to_charge - battery_soc) / 100)

/-- Actuator command issued by `_boiler_power`: mode MANUAL with a target
temperature, or mode ANTIFREEZE (off). -/
inductive BCmd where
  | on (temp : ℚ)
  | off
deriving DecidableEq

/-- The sensor and configuration values read at the top of `boiler_logic`
(manager.py lines 82-102), one record per control tick. -/
structure BoilerData where
  boiler_power : ℚ
  battery_top : ℚ
  battery_bottom : ℚ
  grid_threshold : ℚ
  grid_power : ℚ
  critical_loads_history : ℚ
  pv_power_history : ℚ
  critical_loads : ℚ
  battery_soc : ℚ
  boiler_heating : String
  boiler_power_on : Bool
  heating_temp : ℚ

/-- Embedding of `PVWaterHeatingManager.boiler_logic`
(manager.py lines 104-182).  Returns the actuator command issued this
tick, if any; early `return` after `_boiler_power` becomes `some`,
falling through without a call becomes `none`. -/
def boiler_logic (d : BoilerData) : Option BCmd :=
  if d.boiler_power_on then
    if d.battery_soc < d.battery_bottom then some BCmd.off
    else if d.grid_power > d.grid_threshold then some BCmd.off
    else if d.boiler_heating = "off" then
      if d.pv_power_history < 0.7 * (d.critical_loads_history + d.boiler_power) then
        if d.pv_power_history < 0.7 * (d.critical_loads + d.boiler_power) then some BCmd.off
        else none
      else none
    else
      if d.pv_power_history < 0.7 * d.critical_loads_history then
        if d.pv_power_history < 0.7 * d.critical_loads then some BCmd.off
        else none
      else none
  else
    if d.battery_soc < d.battery_top then none
    else if d.grid_power > d.grid_threshold then none
    else if d.pv_power_history < 0.75 * (d.critical_loads_history + d.boiler_power) then none
    else some (BCmd.on d.heating_temp)

/-- Python `min` over a non-empty list (0 for the empty list, which the
caller rules out). -/
def listMin : List ℚ → ℚ
  | [] => 0
  | a :: rest => rest.foldl min a

/-- Python `sum(xs) / len(xs)`. -/
def listMean (xs : List ℚ) : ℚ := xs.sum / xs.length

/-- Embedding of `numpy.percentile` with the default linear interpolation:
on the ascending sort of `xs`, the value at virtual index
`p / 100 * (len - 1)`, interpolating between the neighbouring samples. -/
def npPercentile (p : ℚ) (xs : List ℚ) : ℚ :=
  let sorted := List.insertionSort (· ≤ ·) xs
  match sorted with
  | [] => 0
  | a :: _ =>
    let n : ℚ := sorted.length
    let idx : ℚ := p * (n - 1) / 100
    let i : ℕ := (⌊idx⌋).toNat
    let lo := sorted.getD i a
    let hi := sorted.getD (i + 1) lo
    lo + (idx - ⌊idx⌋) * (hi - lo)

/-- Python truthiness of the `percentile` argument: `None` and `0` are
falsy, every other integer is truthy. -/
def truthy : Option ℤ → Bool
  | none => false
  | some p => p != 0

/-- Numeric value of the `percentile` argument. -/
def pVal (p : Option ℤ) : ℚ := ((p.getD 0 : ℤ) : ℚ)

/-- Embedding of `PVWaterHeatingManager._get_sensor_history`
(manager.py lines 530-615).  The fetched samples are modelled as a list
of `Option ℚ`: `some v` for a state string that parses as a number with
value `v`, `none` for a non-numeric state.  An absent or empty history
is the empty list.  `min_val` and `percentile` are the keyword arguments. -/
def get_sensor_history (states : List (Option ℚ)) (min_val : Bool)
    (percentile : Option ℤ) : Option ℚ :=
  let numeric_states := states.filterMap id
  if numeric_states = [] then none
  else if truthy percentile then some (round2 (npPercentile (pVal percentile) numeric_states))
  else if min_val then some (round2 (listMin numeric_states))
  else some (round2 (listMean numeric_states))

/-- Embedding of `PVWaterHeatingManager._planned_to_past`
(manager.py lines 735-754).  Naive datetimes sharing one timezone are
modelled as integer seconds on a common timeline; `.time()` becomes the
second-of-day `emod 86400`, and Python's `timedelta.seconds` attribute of
`datetime_now - planned_datetime_new` is the total difference `emod 86400`
(Python normalises a timedelta to days plus a seconds field in
`[0, 86400)`). -/
def planned_to_past (now planned : ℤ) : Bool :=
  let time_now := now.emod 86400
  let planned_time_new := planned.emod 86400
  if planned_time_new ≤ time_now ∨ (((now - planned).emod 86400 : ℚ) / 60 < 5) then true
  else false

/-- Modelled from the claim's words, for comparison only: a candidate is
"in the past" when it is at or before now or within the 5-minute guard
band after now. -/
def claim_planned_to_past (now planned : ℤ) : Bool :=
  decide (planned ≤ now ∨ planned - now < 300)

/-- Configuration and sensor values read by the Automatic-mode forecast
check inside `_start_night_pre_heating` (manager.py lines 403-435). -/
structure ForecastData where
  heating_temp : ℚ
  temp_variable : ℚ
  boiler_min_temp : ℚ
  preheat_temp : ℚ
  boiler_power : ℚ
  boiler_volume : ℚ
  battery_soc : ℚ
  battery_capacity : ℚ
  battery_soc_bottom : ℚ

/-- Embedding of the energy-requirement computation of the Automatic-mode
branch of `_start_night_pre_heating` (manager.py lines 406-432):
`boiler_energy_day[0] + battery_energy`.  Note the source passes
`(preheat_temp, delta_temp)` as the (water_temp, temp_to_heat) pair of
`_calculate_boiler_heat`, and passes `battery_capacity * battery_soc_bottom / 100`
as the capacity of `_calculate_battery_energy`, whose target SoC stays at
its default of 80. -/
def night_forecast_required_energy (f : ForecastData) : ℚ :=
  let min_temp := max (f.heating_temp - f.temp_variable) f.boiler_min_temp
  let delta_temp := max (min_temp - f.preheat_temp) 0
  let boiler_energy_day := calculate_boiler_heat f.boiler_power f.boiler_volume f.preheat_temp delta_temp
  let desired_batt_cap := f.battery_capacity * f.battery_soc_bottom / 100
  let battery_energy := calculate_battery_energy desired_batt_cap f.battery_soc 80
  boiler_energy_day.1 + battery_energy

/-- Embedding of the forecast gate (manager.py line 435): pre-heating is
cancelled when the required energy exceeds `pv_forecast / 1000`
(forecast in Wh, requirement in kWh), and proceeds otherwise. -/
def night_forecast_proceeds (f : ForecastData) (pv_forecast : ℚ) : Bool :=
  if night_forecast_required_energy f > pv_forecast / 1000 then false else true

/-- Modelled from the claim's words, for comparison only: battery top-up
energy `capacity_Wh / 1000 * max(soc_target - soc_now, 0) / 100`. -/
def claim_battery_energy (capacity soc_now soc_target : ℚ) : ℚ :=
  capacity / 1000 * max (soc_target - soc_now) 0 / 100

/-- The four cross-tick flags of the night pre-heating scheduler,
stored in `hass.data[DOMAIN]` by manager.py and switch.py. -/
structure SchedState where
  calcPlanned : Bool
  planned : Bool
  preheating : Bool
  canceled : Bool
deriving DecidableEq, Fintype

/-- The scheduler state with all four flags clear. -/
def idleState : SchedState := ⟨false, false, false, false⟩

/-- Outcomes of the external reads a scheduler callback performs, sampled
once per callback invocation.  Each field names the source condition it
stands for:
`switchOn` = `night_heating_switch.is_on`;
`startPast` = `_planned_to_past(planned_datetime)` for the candidate start
time in `_plan_start_night_pre_heating`;
`waterHot` = `boiler_water_temp - 3 >= preheat_temp` in
`_start_night_pre_heating`;
`tooEarly` = `time_left - needed_time > 60`;
`disconnected` = boiler state reads "Disconnected";
`autoInsufficient` = manager status is "Automatic" and
`boiler_energy_day[0] + battery_energy > pv_forecast / 1000`;
`morningPast` = `_planned_to_past` of today's morning time;
`boilerHeatOn` = the boiler heat entity reads "on" in switch.py;
`managerInitializing` = manager status sensor reads "Initializing". -/
structure SchedEnv where
  switchOn : Bool
  startPast : Bool
  waterHot : Bool
  tooEarly : Bool
  disconnected : Bool
  autoInsufficient : Bool
  morningPast : Bool
  boilerHeatOn : Bool
  managerInitializing : Bool
deriving DecidableEq

/-- The environment record is a 9-tuple of booleans. -/
def schedEnvEquiv :
    (Bool × Bool × Bool × Bool × Bool × Bool × Bool × Bool × Bool) ≃ SchedEnv where
  toFun p := ⟨p.1, p.2.1, p.2.2.1, p.2.2.2.1, p.2.2.2.2.1, p.2.2.2.2.2.1,
    p.2.2.2.2.2.2.1, p.2.2.2.2.2.2.2.1, p.2.2.2.2.2.2.2.2⟩
  invFun e := (e.switchOn, e.startPast, e.waterHot, e.tooEarly, e.disconnected,
    e.autoInsufficient, e.morningPast, e.boilerHeatOn, e.managerInitializing)
  left_inv _ := rfl
  right_inv _ := rfl

instance : Fintype SchedEnv := Fintype.ofEquiv _ schedEnvEquiv

/-- An executed `_boiler_power` call of the scheduler: `powerOn` is
`_boiler_power(True, preheat_temp)`, `powerOff` is `_boiler_power(False)`. -/
inductive SchedCmd where
  | powerOn
  | powerOff
deriving DecidableEq

/-- Embedding of `PVWaterHeatingManager._end_pre_heating`
(manager.py lines 478-503): clear a pending cancellation without touching
the actuator, otherwise turn the boiler off and clear `night_preheating`. -/
def end_pre_heating (s : SchedState) : SchedState × List SchedCmd :=
  if s.canceled then ({s with canceled := false}, [])
  else ({s with preheating := false}, [SchedCmd.powerOff])

/-- Embedding of `PVWaterHeatingManager._start_night_pre_heating`
(manager.py lines 309-476).  The timer (re)scheduling calls are reflected
in the flags alone; the branches appear in source order. -/
def start_night_pre_heating (s : SchedState) (e : SchedEnv) : SchedState × List SchedCmd :=
  if e.waterHot then
    let s1 := {s with canceled := true}
    if e.morningPast then end_pre_heating {s1 with planned := false}
    else ({s1 with planned := false}, [])
  else if e.tooEarly then (s, [])
  else if e.disconnected then
    let s1 := {s with canceled := true}
    if e.morningPast then end_pre_heating {s1 with planned := false}
    else ({s1 with planned := false}, [])
  else if e.autoInsufficient then
    let s1 := {s with canceled := true}
    if e.morningPast then end_pre_heating {s1 with planned := false}
    else ({s1 with planned := false}, [])
  else
    let s1 := {s with preheating := true}
    if e.morningPast then
      let r := end_pre_heating {s1 with planned := false}
      (r.1, SchedCmd.powerOn :: r.2)
    else ({s1 with planned := false}, [SchedCmd.powerOn])

/-- Embedding of `PVWaterHeatingManager._plan_start_night_pre_heating`
(manager.py lines 242-307): mark the start planned, run the start handler
immediately when the candidate start time is already past, and clear
`night_heating_calc_planned` last (line 305). -/
def plan_start_night_pre_heating (s : SchedState) (e : SchedEnv) : SchedState × List SchedCmd :=
  if e.startPast then
    let r := start_night_pre_heating {s with planned := true} e
    ({r.1 with calcPlanned := false}, r.2)
  else ({s with planned := true, calcPlanned := false}, [])

/-- Embedding of `PVWaterHeatingManager.night_pre_heating`
(manager.py lines 184-240): the per-tick entry point, a no-op unless all
four flags are clear and the feature switch is on, in which case the
calculation timer is scheduled and `night_heating_calc_planned` set. -/
def night_pre_heating (s : SchedState) (e : SchedEnv) : SchedState × List SchedCmd :=
  if s.planned || s.calcPlanned || s.canceled || s.preheating then (s, [])
  else if !e.switchOn then (s, [])
  else ({s with calcPlanned := true}, [])

/-- Embedding of `NightHeatingSwitch._toggle_state` with `value = False`
(switch.py lines 65-92).  Timers are cancelled when the manager status is
not "Initializing" (no flag effect here).  When `night_preheating` is set
and the boiler heat entity reads "on", the source evaluates
`manager._boiler_power(False)` without awaiting the resulting coroutine,
so the service calls inside `_boiler_power` never execute and no actuator
command is issued; the branch is kept to mirror the source. -/
def toggle_state_off (s : SchedState) (e : SchedEnv) : SchedState × List SchedCmd :=
  let cmds : List SchedCmd :=
    if s.preheating then
      if e.boilerHeatOn then [] else []
    else []
  (⟨false, false, false, false⟩, cmds)

/-- The scheduler callbacks that can fire between control ticks, each
carrying the outcomes of its external reads. -/
inductive SchedEv where
  | tick (e : SchedEnv)
  | calcFire (e : SchedEnv)
  | startFire (e : SchedEnv)
  | endFire
  | switchOff (e : SchedEnv)

/-- Dispatch one callback invocation. -/
def schedStep (s : SchedState) : SchedEv → SchedState × List SchedCmd
  | SchedEv.tick e => night_pre_heating s e
  | SchedEv.calcFire e => plan_start_night_pre_heating s e
  | SchedEv.startFire e => start_night_pre_heating s e
  | SchedEv.endFire => end_pre_heating s
  | SchedEv.switchOff e => toggle_state_off s e

/-- A callback can only fire when its timer was scheduled: the calculation
timer is pending exactly while `night_heating_calc_planned` holds, the
start timer while `night_heating_planned` holds, and the end timer while a
cancellation or an active pre-heat is pending. -/
def schedEnabled (s : SchedState) : SchedEv → Prop
  | SchedEv.tick _ => True
  | SchedEv.calcFire _ => s.calcPlanned = true
  | SchedEv.startFire _ => s.planned = true
  | SchedEv.endFire => s.canceled = true ∨ s.preheating = true
  | SchedEv.switchOff _ => True

/-- States reachable from the idle state through enabled callbacks,
sampled at callback boundaries. -/
inductive SchedReachable : SchedState → Prop where
  | init : SchedReachable idleState
  | next (s : SchedState) (ev : SchedEv) (hs : SchedReachable s)
      (he : schedEnabled s ev) : SchedReachable (schedStep s ev).1

/-- Number of the four scheduler flags that are set. -/
def flagCount (s : SchedState) : ℕ :=
  (cond s.calcPlanned 1 0) + (cond s.planned 1 0) + (cond s.preheating 1 0) +
    (cond s.canceled 1 0)

/-- The claim's stronger predicate: exactly one of
`night_heating_calc_planned`, `night_heating_planned`, `night_preheating`
is set. -/
def exactlyOneOfThree (s : SchedState) : Prop :=
  (cond s.calcPlanned 1 0) + (cond s.planned 1 0) + (cond s.preheating 1 0) = 1

/-- Environment sample with only the feature switch on, used for ticks and
for a calculation-timer firing whose candidate start time is not past. -/
def envTick : SchedEnv := ⟨true, false, false, false, false, false, false, false, false⟩

/-- Environment sample for a start trigger that finds the water already
hot while the morning deadline is not yet past. -/
def envStartHot : SchedEnv := ⟨true, false, true, false, false, false, false, false, false⟩

/-- Environment sample for the feature switch being turned off while the
boiler heat entity reads "on" and the manager is not initializing. -/
def envSwitchOff : SchedEnv := ⟨false, false, false, false, false, false, false, true, false⟩

/-- The concrete Automatic-mode configuration of the C5 example: day
target 50 °C, variation 5 °C, minimum 40 °C, preheat target 45 °C (so the
day-heating need is zero), power 2000 W, volume 150 L, SoC 50 %,
capacity 4800 Wh, bottom threshold 65 %. -/
def forecastCfg : ForecastData := ⟨50, 5, 40, 45, 2000, 150, 50, 4800, 65⟩

/-- A control tick on which all three start conditions of C1 hold. -/
def bdOn : BoilerData := ⟨2000, 90, 30, 100, 50, 1000, 2400, 900, 95, "on", false, 55⟩

/-- A control tick with the boiler commanded on and the battery below the
bottom threshold. -/
def bdOff : BoilerData := ⟨2000, 90, 30, 100, 50, 1000, 2400, 900, 20, "on", true, 55⟩

set_option maxRecDepth 4000 in
/-- Every scheduler callback preserves mutual exclusion of the four flags,
checked over the whole finite state and environment space. -/
theorem schedStep_preserves :
    ∀ (s : SchedState) (e : SchedEnv), flagCount s ≤ 1 →
      flagCount (night_pre_heating s e).1 ≤ 1 ∧
      (s.calcPlanned = true → flagCount (plan_start_night_pre_heating s e).1 ≤ 1) ∧
      (s.planned = true → flagCount (start_night_pre_heating s e).1 ≤ 1) ∧
      (s.canceled = true ∨ s.preheating = true → flagCount (end_pre_heating s).1 ≤ 1) ∧
      flagCount (toggle_state_off s e).1 ≤ 1 := by decide

/-- C3 (amended): starting from the idle scheduler state, every state
sampled at a scheduler callback boundary has at most one of the four
flags `night_heating_calc_planned`, `night_heating_planned`,
`night_preheating`, `night_heating_canceled` set. -/
theorem scheduler_at_most_one (s : SchedState) (h : SchedReachable s) :
    flagCount s ≤ 1 := by
  induction h with
  | init => decide
  | next s ev hs he ih =>
    cases ev with
    | tick e => exact (schedStep_preserves s e ih).1
    | calcFire e => exact (schedStep_preserves s e ih).2.1 he
    | startFire e => exact (schedStep_preserves s e ih).2.2.1 he
    | endFire => exact (schedStep_preserves s envTick ih).2.2.2.1 he
    | switchOff e => exact (schedStep_preserves s e ih).2.2.2.2

/-- Instantiation of `scheduler_at_most_one` at the initial state. -/
theorem scheduler_at_most_one_witness : flagCount idleState ≤ 1 :=
  scheduler_at_most_one idleState SchedReachable.init

/-- C3 (counterexample): with the feature switch on, the trace
tick, calculation trigger, start trigger with the water already hot
reaches the cancelled state, a sampled instant at which none of the three
flags `night_heating_calc_planned`, `night_heating_planned`,
`night_preheating` is true, refuting the claim's "exactly one of the
three" invariant. -/
theorem scheduler_exactly_one_cex :
    SchedReachable ⟨false, false, false, true⟩ ∧
    ¬ exactlyOneOfThree ⟨false, false, false, true⟩ := by
  constructor
  · have h0 : SchedReachable idleState := SchedReachable.init
    have h1 := SchedReachable.next idleState (SchedEv.tick envTick) h0 trivial
    have e1 : (schedStep idleState (SchedEv.tick envTick)).1 =
        ⟨true, false, false, false⟩ := by decide
    rw [e1] at h1
    have h2 := SchedReachable.next _ (SchedEv.calcFire envTick) h1 rfl
    have e2 : (schedStep ⟨true, false, false, false⟩ (SchedEv.calcFire envTick)).1 =
        ⟨false, true, false, false⟩ := by decide
    rw [e2] at h2
    have h3 := SchedReachable.next _ (SchedEv.startFire envStartHot) h2 rfl
    have e3 : (schedStep ⟨false, true, false, false⟩ (SchedEv.startFire envStartHot)).1 =
        ⟨false, false, false, true⟩ := by decide
    rw [e3] at h3
    exact h3
  · unfold exactlyOneOfThree
    decide

/-- C4 (code bug): turning the feature switch off while `night_preheating`
is set and the boiler heat entity reads "on" resets all four flags but
issues no actuator command at all, because the source never awaits the
`_boiler_power(False)` coroutine; the claimed single off command does not
happen. -/
theorem night_switch_off_no_command :
    (toggle_state_off ⟨false, false, true, false⟩ envSwitchOff).2 = [] ∧
    (toggle_state_off ⟨false, false, true, false⟩ envSwitchOff).1 = idleState := by
  decide

/-- C6 (code bug): with now at 00:01:00 and the candidate at 23:58:00 of
the same day, the candidate lies 23 h 57 min in the future, far beyond the
5-minute guard band, yet `_planned_to_past` returns true: the source
compares only times of day and reads `timedelta.seconds`, which wraps
modulo one day. -/
theorem planned_to_past_wraparound :
    planned_to_past 60 86280 = true ∧
    claim_planned_to_past 60 86280 = false ∧
    (300 : ℤ) < 86280 - 60 := by
  simp only [planned_to_past, claim_planned_to_past]
  norm_num

/-- C7: the thermal-model calculation returns (0, 0) whenever the
temperature delta is non-positive or the volume or power is zero. -/
theorem calculate_boiler_heat_degenerate
    (boiler_power boiler_volume water_temp temp_to_heat : ℚ)
    (h : temp_to_heat - water_temp ≤ 0 ∨ boiler_volume = 0 ∨ boiler_power = 0) :
    calculate_boiler_heat boiler_power boiler_volume water_temp temp_to_heat = (0, 0) := by
  rcases h with h | h | h
  · by_cases hv : boiler_volume = 0 ∨ boiler_power = 0
    · simp [calculate_boiler_heat, hv]
    · have ht : temp_to_heat ≤ water_temp := by linarith
      simp [calculate_boiler_heat, hv, ht]
  · simp [calculate_boiler_heat, h]
  · simp [calculate_boiler_heat, h]

/-- Instantiation of `calculate_boiler_heat_degenerate` at a zero
temperature delta. -/
theorem calculate_boiler_heat_degenerate_witness :
    ((75 : ℚ) - 75 ≤ 0 ∨ (150 : ℚ) = 0 ∨ (2000 : ℚ) = 0) ∧
    calculate_boiler_heat 2000 150 75 75 = (0, 0) :=
  ⟨Or.inl (by norm_num),
    calculate_boiler_heat_degenerate 2000 150 75 75 (Or.inl (by norm_num))⟩

/-- C8 (counterexample): for volume 150, power 2000, water 40 °C, target
75 °C the thermal model yields 6.1 kWh and 183.14 minutes, far from the
claimed 3.14 kWh and 94.2 minutes. -/
theorem boiler_heat_example_cex :
    calculate_boiler_heat 2000 150 40 75 = (6.1, 183.14) ∧
    (3.14 : ℚ) + 2 < (calculate_boiler_heat 2000 150 40 75).1 ∧
    (94.2 : ℚ) + 80 < (calculate_boiler_heat 2000 150 40 75).2 := by
  norm_num [calculate_boiler_heat, round2, roundHalfEven, Int.floor_eq_iff]

/-- C8 (amended): for volume 150, power 2000, water 40 °C, target 75 °C
the thermal model returns 6.1 kWh and 183.14 minutes. -/
theorem boiler_heat_example_amended :
    calculate_boiler_heat 2000 150 40 75 = (6.1, 183.14) := by
  norm_num [calculate_boiler_heat, round2, roundHalfEven, Int.floor_eq_iff]

/-- C5 (counterexample): with capacity 4800 Wh, SoC 50 %, bottom threshold
65 % and zero day-heating need, a forecast of 800 Wh satisfies the claimed
requirement of 0.72 kWh, yet the code refuses to proceed: it computes the
battery term as (4800 × 65 / 100) / 1000 × (80 − 50) / 100 = 0.94 kWh. -/
theorem forecast_balance_cex :
    night_forecast_proceeds forecastCfg 800 = false ∧
    claim_battery_energy 4800 50 65 = 0.72 ∧
    (0 : ℚ) + 0.72 ≤ 800 / 1000 := by
  norm_num [night_forecast_proceeds, night_forecast_required_energy, forecastCfg,
    calculate_boiler_heat, calculate_battery_energy, claim_battery_energy,
    round2, roundHalfEven, Int.floor_eq_iff]

/-- C5 (amended): for the example configuration the required energy is
0.94 kWh — battery target SoC hard-coded at 80 % applied to the capacity
scaled by the bottom threshold — and pre-heating proceeds exactly when
the forecast is at least 940 Wh. -/
theorem forecast_balance_amended :
    night_forecast_required_energy forecastCfg = 0.94 ∧
    ∀ pv_forecast : ℚ,
      night_forecast_proceeds forecastCfg pv_forecast = true ↔ 940 ≤ pv_forecast := by
  have hreq : night_forecast_required_energy forecastCfg = 0.94 := by
    norm_num [night_forecast_required_energy, forecastCfg, calculate_boiler_heat,
      calculate_battery_energy, round2, roundHalfEven, Int.floor_eq_iff]
  refine ⟨hreq, fun pv_forecast => ?_⟩
  unfold night_forecast_proceeds
  rw [hreq]
  split_ifs with hc
  · simp only [Bool.false_eq_true, false_iff, not_le]
    norm_num at hc
    linarith
  · simp only [true_iff]
    norm_num at hc
    linarith

/-- C1: with the commanded-on flag false, the hysteresis controller
commands the boiler on with the day target temperature exactly when the
battery SOC is at least the top threshold, the grid power is at most the
grid threshold, and the PV statistic is at least 75 % of the critical-load
statistic plus the boiler power; when any of these fails, no command at
all is issued. -/
theorem boiler_logic_off_to_on (d : BoilerData) (h : d.boiler_power_on = false) :
    (boiler_logic d = some (BCmd.on d.heating_temp) ↔
      (d.battery_top ≤ d.battery_soc ∧ d.grid_power ≤ d.grid_threshold ∧
        0.75 * (d.critical_loads_history + d.boiler_power) ≤ d.pv_power_history)) ∧
    (boiler_logic d = some (BCmd.on d.heating_temp) ∨ boiler_logic d = none) := by
  unfold boiler_logic
  rw [h]
  simp only [Bool.false_eq_true, if_false]
  constructor
  · constructor
    · intro hcmd
      by_cases h1 : d.battery_soc < d.battery_top
      · rw [if_pos h1] at hcmd
        exact Option.noConfusion hcmd
      rw [if_neg h1] at hcmd
      by_cases h2 : d.grid_power > d.grid_threshold
      · rw [if_pos h2] at hcmd
        exact Option.noConfusion hcmd
      rw [if_neg h2] at hcmd
      by_cases h3 : d.pv_power_history < 0.75 * (d.critical_loads_history + d.boiler_power)
      · rw [if_pos h3] at hcmd
        exact Option.noConfusion hcmd
      exact ⟨not_lt.mp h1, not_lt.mp h2, not_lt.mp h3⟩
    · rintro ⟨c1, c2, c3⟩
      rw [if_neg (not_lt.mpr c1), if_neg (not_lt.mpr c2), if_neg (not_lt.mpr c3)]
  · split_ifs <;> simp

theorem boiler_logic_off_to_on_witness :
    bdOn.boiler_power_on = false ∧ boiler_logic bdOn = some (BCmd.on 55) :=
  ⟨rfl, (boiler_logic_off_to_on bdOn rfl).1.mpr
    ⟨by norm_num [bdOn], by norm_num [bdOn], by norm_num [bdOn]⟩⟩

/-- C2: with the commanded-on flag true, the hysteresis controller
commands the boiler off exactly when the battery SOC is below the bottom
threshold, or the grid power exceeds the grid threshold, or the hardware
heat status is "off" and the PV statistic is below 70 % of the
critical-load statistic plus boiler power and also below 70 % of the
instantaneous critical load plus boiler power, or the hardware heat
status is not "off" and the PV statistic is below 70 % of the
critical-load statistic and also below 70 % of the instantaneous critical
load; otherwise no command is issued. -/
theorem boiler_logic_on_to_off (d : BoilerData) (h : d.boiler_power_on = true) :
    (boiler_logic d = some BCmd.off ↔
      (d.battery_soc < d.battery_bottom ∨ d.grid_power > d.grid_threshold ∨
        (d.boiler_heating = "off" ∧
          d.pv_power_history < 0.7 * (d.critical_loads_history + d.boiler_power) ∧
          d.pv_power_history < 0.7 * (d.critical_loads + d.boiler_power)) ∨
        (d.boiler_heating ≠ "off" ∧
          d.pv_power_history < 0.7 * d.critical_loads_history ∧
          d.pv_power_history < 0.7 * d.critical_loads))) ∧
    (boiler_logic d = some BCmd.off ∨ boiler_logic d = none) := by
  unfold boiler_logic
  rw [h, if_pos rfl]
  constructor
  · split_ifs with h1 h2 h3 h4 h5 h6 h7
    · exact ⟨fun _ => Or.inl h1, fun _ => rfl⟩
    · exact ⟨fun _ => Or.inr (Or.inl h2), fun _ => rfl⟩
    · exact ⟨fun _ => Or.inr (Or.inr (Or.inl ⟨h3, h4, h5⟩)), fun _ => rfl⟩
    · refine ⟨fun hc => by simp at hc, fun hr => ?_⟩
      exfalso
      rcases hr with hr | hr | ⟨_, _, hr⟩ | ⟨hr, _, _⟩
      · exact h1 hr
      · exact h2 hr
      · exact h5 hr
      · exact hr h3
    · refine ⟨fun hc => by simp at hc, fun hr => ?_⟩
      exfalso
      rcases hr with hr | hr | ⟨_, hr, _⟩ | ⟨hr, _, _⟩
      · exact h1 hr
      · exact h2 hr
      · exact h4 hr
      · exact hr h3
    · exact ⟨fun _ => Or.inr (Or.inr (Or.inr ⟨h3, h6, h7⟩)), fun _ => rfl⟩
    · refine ⟨fun hc => by simp at hc, fun hr => ?_⟩
      exfalso
      rcases hr with hr | hr | ⟨hr, _, _⟩ | ⟨_, _, hr⟩
      · exact h1 hr
      · exact h2 hr
      · exact h3 hr
      · exact h7 hr
    · refine ⟨fun hc => by simp at hc, fun hr => ?_⟩
      exfalso
      rcases hr with hr | hr | ⟨hr, _, _⟩ | ⟨_, hr, _⟩
      · exact h1 hr
      · exact h2 hr
      · exact h3 hr
      · exact h6 hr
  · split_ifs <;> simp

theorem boiler_logic_on_to_off_witness :
    bdOff.boiler_power_on = true ∧ boiler_logic bdOff = some BCmd.off :=
  ⟨rfl, (boiler_logic_on_to_off bdOff rfl).1.mpr (Or.inl (by norm_num [bdOff]))⟩

/-- C9: the history aggregation returns null exactly when no numeric
sample remains after discarding non-numeric ones, and otherwise the
selected statistic — percentile when a truthy percentile is requested,
else the minimum when `min_val` is set, else the mean — rounded to two
decimal places. -/
theorem get_sensor_history_spec (states : List (Option ℚ)) (min_val : Bool)
    (percentile : Option ℤ) :
    (get_sensor_history states min_val percentile = none ↔ states.filterMap id = []) ∧
    (states.filterMap id ≠ [] →
      get_sensor_history states min_val percentile =
        some (round2
          (if truthy percentile then npPercentile (pVal percentile) (states.filterMap id)
           else if min_val then listMin (states.filterMap id)
           else listMean (states.filterMap id)))) := by
  constructor
  · simp only [get_sensor_history]
    split_ifs with h1 h2 h3 <;> simp [h1]
  · intro hne
    simp only [get_sensor_history, if_neg hne]
    split_ifs with h2 h3 <;> rfl

/-- Instantiation of `get_sensor_history_spec` on the samples
1, non-numeric, 3 with the mean requested. -/
theorem get_sensor_history_spec_witness :
    ([some (1 : ℚ), none, some 3].filterMap id ≠ []) ∧
    get_sensor_history [some (1 : ℚ), none, some 3] false none = some 2 := by
  refine ⟨by simp, ?_⟩
  have h := (get_sensor_history_spec [some (1 : ℚ), none, some 3] false none).2 (by simp)
  rw [h]
  have hfm : List.filterMap id [some (1 : ℚ), none, some 3] = [1, 3] := rfl
  rw [hfm]
  have hm : listMean [(1 : ℚ), 3] = 2 := by norm_num [listMean]
  simp only [truthy, Bool.false_eq_true, if_false, hm]
  norm_num [round2, roundHalfEven]

/-- C10: requesting the 0th percentile behaves exactly like requesting no
percentile: the result is the minimum when `min_val` is set and the mean
otherwise, because Python's `if percentile:` treats 0 as falsy. -/
theorem get_sensor_history_percentile_zero (states : List (Option ℚ)) (min_val : Bool)
    (h : states.filterMap id ≠ []) :
    get_sensor_history states min_val (some 0) = get_sensor_history states min_val none ∧
    (min_val = true →
      get_sensor_history states min_val (some 0) =
        some (round2 (listMin (states.filterMap id)))) ∧
    (min_val = false →
      get_sensor_history states min_val (some 0) =
        some (round2 (listMean (states.filterMap id)))) := by
  have ht : truthy (some 0) = false := rfl
  have ht2 : truthy none = false := rfl
  have h0 : get_sensor_history states min_val (some 0) =
      if min_val then some (round2 (listMin (states.filterMap id)))
      else some (round2 (listMean (states.filterMap id))) := by
    simp only [get_sensor_history, ht, Bool.false_eq_true, if_false, if_neg h]
  have h1 : get_sensor_history states min_val none =
      if min_val then some (round2 (listMin (states.filterMap id)))
      else some (round2 (listMean (states.filterMap id))) := by
    simp only [get_sensor_history, ht2, Bool.false_eq_true, if_false, if_neg h]
  refine ⟨h0.trans h1.symm, fun hm => ?_, fun hm => ?_⟩
  · rw [h0, hm, if_pos rfl]
  · rw [h0, hm]
    simp

/-- Instantiation of `get_sensor_history_percentile_zero` on the samples
1 and 3: the 0th percentile request yields the mean 2, not the 0th
percentile 1. -/
theorem get_sensor_history_percentile_zero_witness :
    ([some (1 : ℚ), some 3].filterMap id ≠ []) ∧
    get_sensor_history [some (1 : ℚ), some 3] false (some 0) = some 2 := by
  refine ⟨by simp, ?_⟩
  have h := (get_sensor_history_percentile_zero [some (1 : ℚ), some 3] false (by simp)).2.2 rfl
  rw [h]
  have hfm : List.filterMap id [some (1 : ℚ), some 3] = [1, 3] := rfl
  rw [hfm]
  have hm : listMean [(1 : ℚ), 3] = 2 := by norm_num [listMean]
  rw [hm]
  norm_num [round2, roundHalfEven]
